import Mathlib

/-!
Shallow embedding of `src/supervised-oie/src/rnn/seq2seq_model.py`
(the single source file of this repository) together with the parts of
its dependencies' documented behaviour that the file relies on:
`pandas.read_csv` (python engine, `header=None`, explicit `names`),
`numpy.random.seed`, and Python's calling / name-resolution rules.

The file defines the data model and the operations of the script
(`compile_model`, `load_dataset`, `__init__`, `get_callbacks`, `train`,
and the `__main__` block) as executable Lean functions, then proves or
refutes the specification claims about them.
-/

/-- A Python value as it can occur in the JSON hyperparameter file or as an
argument of the script's functions.  JSON floats are omitted (no claim
depends on them); `obj s` stands for an arbitrary Python object such as a
class instance, tagged by its class name. -/
inductive PyVal where
  | str (s : String)
  | int (n : Int)
  | bool (b : Bool)
  | none
  | obj (cls : String)
deriving DecidableEq, Repr

/-- Python's `str()` on the values of `PyVal`, as used by
`str(self.args['sep'])` (line 53) and `str(hyperparams['sep'])` (line 196):
a total coercion, never an error. -/
def pyStr : PyVal → String
  | .str s => s
  | .int n => toString n
  | .bool true => "True"
  | .bool false => "False"
  | .none => "None"
  | .obj cls => "<" ++ cls ++ " object>"

/-- The runtime errors relevant to this script: Python `TypeError`,
Python `NameError` (with the unresolvable name), Python `AttributeError`
(with the missing attribute), and the pandas `ParserError` raised for a
row with more fields than expected. -/
inductive PyErr where
  | typeError (msg : String)
  | nameError (name : String)
  | attributeError (attr : String)
  | parserError (expected saw : Nat)
deriving DecidableEq, Repr

/-- One cell of a loaded data table: a raw field read from the file, or
the `NaN` that pandas fills in for a missing trailing field. -/
inductive Cell where
  | val (s : String)
  | nan
deriving DecidableEq, Repr

/-- A loaded pandas data frame: its column names and its rows. -/
structure DataFrame where
  columns : List String
  rows : List (List Cell)
deriving DecidableEq, Repr

/-- Splitting a character list at every occurrence of the separator
character. -/
def splitChars (sep : Char) : List Char → List (List Char)
  | [] => [[]]
  | c :: rest =>
    match splitChars sep rest with
    | [] => [[c]]
    | f :: fs => if c = sep then [] :: f :: fs else (c :: f) :: fs

/-- Splitting one line of a delimited text file on the separator.  The
separator is a single character: that is the only shape the dataset file
format uses (a tab or a comma), and the shape for which the python engine
of pandas splits literally rather than treating the separator as a
regular expression. -/
def splitRow (sep : Char) (line : String) : List String :=
  (splitChars sep line.toList).map String.mk

/-- Model of `pandas.read_csv(fn, sep=sep, header=None, names=names,
engine='python')` on the lines of the file, per pandas' documented
behaviour for this call: there is no header row, so every line is data;
blank lines are skipped (`skip_blank_lines` defaults to true); a row with
fewer fields than `names` has its missing trailing fields filled with
`NaN`; a row with more fields than `names` raises a `ParserError` naming
the expected and seen field counts (`error_bad_lines` defaults to true,
and the first offending row aborts the read); the column names of the
result are exactly `names`. -/
def read_csv (names : List String) (sep : Char) (lines : List String) :
    Except PyErr DataFrame :=
  match (lines.filter (fun l => l ≠ "")).find?
      (fun l => names.length < (splitRow sep l).length) with
  | Option.some bad =>
      Except.error (PyErr.parserError names.length (splitRow sep bad).length)
  | Option.none =>
      Except.ok { columns := names
                  rows := (lines.filter (fun l => l ≠ "")).map (fun l =>
                    (splitRow sep l).map Cell.val ++
                      List.replicate (names.length - (splitRow sep l).length)
                        Cell.nan) }

/-- The column names of the OIE dataset schema, as built on lines 161-163
of the source: `['sent', 'base-pred', 'surface-pred']` followed by
`arg0 .. arg9` (the source renders each as `'arg' + str(i)`). -/
def oieColumns : List String :=
  ["sent", "base-pred", "surface-pred"] ++
    (List.range 10).map (fun i => "arg" ++ toString i)

/-- `Seq2seq_OIE.load_dataset(fn, sep)` (lines 155-167): a single call to
`pandas.read_csv` with `header=None` and the fixed 13-name schema, whose
result is returned directly.  The encoding code after the `return` is
commented out in the source, so nothing further happens.  The file is
represented by its list of lines. -/
def load_dataset (lines : List String) (sep : Char) :
    Except PyErr DataFrame :=
  read_csv oieColumns sep lines

/-- Which of the two library constructors `compile_model` selects. -/
inductive NetKind where
  | seq2Seq
  | attentionSeq2Seq
deriving DecidableEq, Repr

/-- The structural configuration of the network built by `compile_model`:
the constructor used, the keyword arguments passed to it (`peek` is
`Option Bool` because the source passes it only in the non-attention
branch), and the compilation arguments. -/
structure ModelSpec where
  kind : NetKind
  peek : Option Bool
  input_length : Nat
  input_dim : Nat
  hidden_dim : Nat
  output_length : Nat
  output_dim : Nat
  depth : Nat × Nat
  loss : String
  optimizer : String
deriving DecidableEq, Repr

/-- `Seq2seq_OIE.compile_model` (lines 71-121): picks
`AttentionSeq2Seq(**args)` when `attention` is set, else
`Seq2Seq(peek=peek, **args)` — the `peek` keyword is passed only in the
second branch — and hands both the same keyword arguments
`input_length`, `input_dim`, `hidden_dim`, `output_length`, `output_dim`
and `depth=(input_depth, output_depth)`; the result is compiled with the
given `loss` and `optimizer`. -/
def compile_model (input_length input_depth input_dim hidden_dim
    output_length output_depth output_dim : Nat)
    (peek attention : Bool) (loss optimizer : String) : ModelSpec :=
  if attention then
    { kind := NetKind.attentionSeq2Seq
      peek := Option.none
      input_length := input_length
      input_dim := input_dim
      hidden_dim := hidden_dim
      output_length := output_length
      output_dim := output_dim
      depth := (input_depth, output_depth)
      loss := loss
      optimizer := optimizer }
  else
    { kind := NetKind.seq2Seq
      peek := Option.some peek
      input_length := input_length
      input_dim := input_dim
      hidden_dim := hidden_dim
      output_length := output_length
      output_dim := output_dim
      depth := (input_depth, output_depth)
      loss := loss
      optimizer := optimizer }

/-- The pretrained embedding object returned by `Glove(emb_fn)`: the script
only ever reads its `dim` attribute (the embedding width), so the model
keeps just that. -/
structure GloveEmb where
  dim : Nat
deriving DecidableEq, Repr

/-- The hyperparameter mapping handed to `Seq2seq_OIE(**hyperparams)`,
holding exactly the keys `__init__` reads.  Each field is typed by the
role the script gives it, except `sep`, which the code accepts as any
JSON value and coerces with `str()`. -/
structure Args where
  seed : Nat
  sep : PyVal
  batch_size : Nat
  maximum_output_length : Nat
  emb_fn : String
  hidden_dim : Nat
  input_depth : Nat
  output_depth : Nat
  peek : Bool
  attention : Bool
  epochs : Nat
  loss : String
  optimizer : String
deriving DecidableEq, Repr

/-- The externally visible actions `__init__` performs, in program order:
loading the Glove embedding file, seeding the process-wide NumPy random
number generator, and building the compiled network. -/
inductive InitEffect where
  | loadGlove (fn : String)
  | seedRng (seed : Nat)
  | compileNetwork (m : ModelSpec)
deriving DecidableEq, Repr

/-- The fields `__init__` assigns on `self` (besides `args` itself). -/
structure OIEState where
  sep : String
  emb : GloveEmb
  epochs : Nat
  model : ModelSpec
deriving DecidableEq, Repr

/-- `Seq2seq_OIE.__init__` (lines 33-68), with the external Glove loader
passed in as a function from path to embedding.  Statement order in the
source: `self.sep = str(self.args['sep'])`, `self.emb = Glove(...)`,
`self.epochs = ...`, `np.random.seed(self.args['seed'])`,
`self.model = Seq2seq_OIE.compile_model(...)` with
`input_dim = output_dim = self.emb.dim`.  Returns the constructed state
and the effect trace in that order. -/
def Seq2seq_OIE_init (args : Args) (glove : String → GloveEmb) :
    OIEState × List InitEffect :=
  let emb := glove args.emb_fn
  let model := compile_model args.batch_size args.input_depth emb.dim
      args.hidden_dim args.maximum_output_length args.output_depth emb.dim
      args.peek args.attention args.loss args.optimizer
  ({ sep := pyStr args.sep, emb := emb, epochs := args.epochs,
     model := model },
   [InitEffect.loadGlove args.emb_fn,
    InitEffect.seedRng args.seed,
    InitEffect.compileNetwork model])

/-- The effect trace of `__init__` alone. -/
def initEffects (args : Args) (glove : String → GloveEmb) :
    List InitEffect :=
  (Seq2seq_OIE_init args glove).2

/-- Does an effect trace start with a seeding action?  (The claim about
`__init__` order says seeding comes first.) -/
def seedsFirst : List InitEffect → Bool
  | InitEffect.seedRng _ :: _ => true
  | _ => false

/-- The state of the process-wide NumPy random number generator.  Its
contents (a Mersenne Twister word table) are abstracted to a single key;
all that matters for the claims is how the script's actions map old
state to new state. -/
structure RngState where
  key : Nat
deriving DecidableEq, Repr

/-- `numpy.random.seed(s)`: replaces the global generator state with a
state computed from the seed alone, discarding the previous state. -/
def npRandomSeed (seed : Nat) : RngState :=
  { key := seed }

/-- Deterministic advance of the generator state, standing for the draws
the underlying library may consume while building the network: a fixed
function of the incoming state. -/
def rngAdvance (st : RngState) : RngState :=
  { key := (st.key * 6364136223846793005 + 1442695040888963407) % 18446744073709551616 }

/-- Iterating the state advance. -/
def rngIter : Nat → RngState → RngState
  | 0, s => s
  | n + 1, s => rngIter n (rngAdvance s)

/-- The `n`-th draw subsequently taken from a generator state: a fixed
deterministic function of the state, standing in for Mersenne Twister
output. -/
def drawStream (st : RngState) (n : Nat) : Nat :=
  (rngIter (n + 1) st).key

/-- The process-wide mutable state the script touches. -/
structure World where
  rng : RngState
deriving DecidableEq, Repr

/-- How each `__init__` effect acts on the process state: the Glove load
does not touch the generator, `np.random.seed` resets it from the seed,
and network construction advances it deterministically. -/
def applyInitEffect (w : World) : InitEffect → World
  | InitEffect.loadGlove _ => w
  | InitEffect.seedRng s => { w with rng := npRandomSeed s }
  | InitEffect.compileNetwork _ => { w with rng := rngAdvance w.rng }

/-- Running a whole constructor call on the process state. -/
def runInit (w : World) (args : Args) (glove : String → GloveEmb) : World :=
  (initEffects args glove).foldl applyInitEffect w

/-- The module-level names bound in `seq2seq_model.py`: the twelve names
introduced by the import block (lines 15-26) and the class defined by the
module body.  Neither `os` nor `pprint` is among them — the pprint line
of the import block binds only `pformat`. -/
def moduleGlobals : List String :=
  ["seq2seq", "pd", "np", "plot_model", "Seq2Seq", "AttentionSeq2Seq",
   "LambdaCallback", "ModelCheckpoint", "docopt", "pformat", "logging",
   "json", "Glove", "Seq2seq_OIE"]

/-- The Python built-in names the script could fall back on; the
built-in scope of CPython contains neither `os` nor `pprint` (both live
in modules that must be imported). -/
def pythonBuiltins : List String :=
  ["print", "len", "open", "range", "str", "int", "format", "enumerate"]

/-- The attributes `__init__` assigns on `self`; `model_dir` is not among
them, and no other method assigns attributes. -/
def initAssignedAttrs : List String :=
  ["args", "sep", "emb", "epochs", "model"]

/-- The local names in scope inside `get_callbacks` when the checkpoint
expression is evaluated: the two parameters and the callback assigned by
the first statement. -/
def getCallbacksLocals : List String :=
  ["self", "X", "sample_output_callback"]

/-- Python name resolution for a name used inside `get_callbacks`:
locals, then module globals, then built-ins. -/
def nameInScope (locals : List String) (n : String) : Bool :=
  locals.contains n || moduleGlobals.contains n || pythonBuiltins.contains n

/-- The configuration of the `ModelCheckpoint` object as written on lines
133-136: path components joined by `os.path.join`, `verbose = 1`,
`save_best_only = False`. -/
structure CheckpointSpec where
  filepath : List String
  verbose : Nat
  save_best_only : Bool
deriving DecidableEq, Repr

/-- The checkpoint configuration the source text specifies, given the
value the `model_dir` attribute would have. -/
def checkpointSpec (model_dir : String) : CheckpointSpec :=
  { filepath := [model_dir, "weights.hdf5"], verbose := 1,
    save_best_only := false }

/-- A callback as built by `get_callbacks`: either the `LambdaCallback`
closure (recorded with the free names its deferred body will resolve when
it fires) or the `ModelCheckpoint`. -/
inductive Callback where
  | lambdaCallback (bodyFreeNames : List String)
  | modelCheckpoint (spec : CheckpointSpec)
deriving DecidableEq, Repr

/-- `Seq2seq_OIE.get_callbacks` (lines 122-137).  The first statement
builds the `LambdaCallback` closure without evaluating its body (so the
`pprint` inside it is not resolved yet).  The second statement evaluates
`ModelCheckpoint(os.path.join(self.model_dir, "weights.hdf5"), verbose=1,
save_best_only=False)`: Python resolves the name `os` first and raises
`NameError` if it is unbound; next it reads `self.model_dir`, raising
`AttributeError` if the instance has no such attribute; only then are the
two callbacks returned.  The surrounding module environment and the
attribute's value are parameters so the general rule is separate from
this module's instantiation. -/
def get_callbacks (globals : List String) (model_dir : Option String) :
    Except PyErr (List Callback) :=
  let sample := Callback.lambdaCallback ["pprint", "self", "X"]
  if getCallbacksLocals.contains "os" || globals.contains "os" ||
      pythonBuiltins.contains "os" then
    match model_dir with
    | Option.some d =>
        Except.ok [sample, Callback.modelCheckpoint (checkpointSpec d)]
    | Option.none => Except.error (PyErr.attributeError "model_dir")
  else
    Except.error (PyErr.nameError "os")

/-- The formal parameter list of `def train(train_fn, dev_fn)` (line
139), exactly as written in the source: `self` is missing. -/
def trainParams : List String :=
  ["train_fn", "dev_fn"]

/-- Python's bound-method call protocol: calling `instance.m(a1, ..., ak)`
prepends the instance to the explicit arguments and matches the result
against the `def`'s parameter list positionally; a count mismatch raises
`TypeError` before the body runs. -/
def callBound (self : PyVal) (params : List String) (args : List PyVal) :
    Except PyErr (List (String × PyVal)) :=
  let positional := self :: args
  if positional.length = params.length then
    Except.ok (params.zip positional)
  else
    Except.error (PyErr.typeError
      ("takes " ++ toString params.length ++
       " positional arguments but " ++ toString positional.length ++
       " were given"))

/-- The command-line arguments `docopt` delivers to the `__main__` block. -/
structure CliArgs where
  train_fn : String
  dev_fn : String
  test_fn : String
  hyperparams_fn : String
  saveto : String
  verbose : Bool
deriving DecidableEq, Repr

/-- The top-level actions of the `__main__` block (lines 179-197). -/
inductive MainStep where
  | parseArgs
  | configureLogging (debug : Bool)
  | loadHyperparams (fn : String)
  | loadData (fn : String) (sep : String)
  | constructModel
  | runTrain
deriving DecidableEq, Repr

/-- The `__main__` block (lines 179-197) as its sequence of top-level
actions: parse the CLI arguments, configure logging at DEBUG when `-v`
is given, read the hyperparameter JSON file, and call
`Seq2seq_OIE.load_dataset(train_fn, str(hyperparams['sep']))`.  The
line `s2s = Seq2seq_OIE(**hyperparams)` is commented out in the source
and no training call exists, so the trace ends there; `sep` is whatever
JSON value sits under the `sep` key. -/
def mainSteps (cli : CliArgs) (sep : PyVal) : List MainStep :=
  [MainStep.parseArgs,
   MainStep.configureLogging cli.verbose,
   MainStep.loadHyperparams cli.hyperparams_fn,
   MainStep.loadData cli.train_fn (pyStr sep)]

/-- Splitting an empty line yields a single empty field, so a blank line
can never carry 13 fields. -/
theorem splitRow_blank (sep : Char) : splitRow sep "" = [""] :=
  rfl

/-- When no line of the file has more fields than there are column
names, `read_csv` succeeds, keeping every non-blank line as a row padded
with `NaN` up to the column count. -/
theorem read_csv_ok (names : List String) (sep : Char) (lines : List String)
    (h : ∀ l ∈ lines, (splitRow sep l).length ≤ names.length) :
    read_csv names sep lines =
      Except.ok { columns := names
                  rows := (lines.filter (fun l => l ≠ "")).map (fun l =>
                    (splitRow sep l).map Cell.val ++
                      List.replicate (names.length - (splitRow sep l).length)
                        Cell.nan) } := by
  have hfind : (lines.filter (fun l => l ≠ "")).find?
      (fun l => names.length < (splitRow sep l).length) = Option.none := by
    apply List.find?_eq_none.mpr
    intro x hx
    have hx' : x ∈ lines := List.mem_of_mem_filter hx
    simp only [decide_eq_true_eq, Nat.not_lt]
    exact h x hx'
  unfold read_csv
  rw [hfind]

/-- On a well-formed file — every line splits into exactly the column
count, which is not 1 — nothing is blank, nothing is padded, and the rows
come out verbatim. -/
theorem read_csv_wellformed (names : List String) (sep : Char)
    (lines : List String)
    (h : ∀ l ∈ lines, (splitRow sep l).length = names.length)
    (hn : names.length ≠ 1) :
    read_csv names sep lines =
      Except.ok { columns := names
                  rows := lines.map (fun l =>
                    (splitRow sep l).map Cell.val) } := by
  have hfil : lines.filter (fun l => l ≠ "") = lines := by
    apply List.filter_eq_self.mpr
    intro l hl
    have hne : l ≠ "" := by
      intro hblank
      apply hn
      rw [← h l hl, hblank, splitRow_blank]
      rfl
    simp [hne]
  have hle : ∀ l ∈ lines, (splitRow sep l).length ≤ names.length :=
    fun l hl => Nat.le_of_eq (h l hl)
  rw [read_csv_ok names sep lines hle, hfil]
  refine congrArg _ (congrArg _ ?_)
  apply List.map_congr_left
  intro l hl
  rw [h l hl, Nat.sub_self, List.replicate_zero, List.append_nil]

/-- A concrete hyperparameter setting, used to instantiate claims. -/
def exArgs : Args :=
  { seed := 7, sep := PyVal.str ",", batch_size := 32,
    maximum_output_length := 5, emb_fn := "glove.txt", hidden_dim := 4,
    input_depth := 1, output_depth := 1, peek := false, attention := false,
    epochs := 1, loss := "mse", optimizer := "adam" }

/-- A concrete embedding loader, used to instantiate claims: every path
yields a 2-dimensional embedding table. -/
def exGlove : String → GloveEmb :=
  fun _ => { dim := 2 }

/-- A concrete command line, used to instantiate claims. -/
def exCli : CliArgs :=
  { train_fn := "train.tsv", dev_fn := "dev.tsv", test_fn := "test.tsv",
    hyperparams_fn := "hp.json", saveto := "model", verbose := false }

/-- Claim C1: for every fixed setting of the dimensional, loss and
optimizer arguments, `compile_model` with `attention = true` builds the
same network configuration for `peek = true` as for `peek = false`, and
the `peek` argument reaches the underlying constructor exactly when
`attention` is false. -/
theorem compile_model_drops_peek_under_attention
    (il idp idim hd ol odp odim : Nat) (loss optimizer : String) :
    compile_model il idp idim hd ol odp odim true true loss optimizer =
      compile_model il idp idim hd ol odp odim false true loss optimizer
    ∧ ∀ peek attention : Bool,
        (compile_model il idp idim hd ol odp odim peek attention loss
          optimizer).peek =
          if attention then Option.none else Option.some peek := by
  refine ⟨rfl, fun peek attention => ?_⟩
  cases attention <;> rfl

/-- Claim C7, counterexample to the stated order: at a concrete
configuration the constructor's first effect is the Glove embedding load;
the seeding of the random number generator is not first, contrary to the
claim that the seed is applied before the embedding table is loaded. -/
theorem init_seeding_not_first :
    seedsFirst (initEffects exArgs exGlove) = false
    ∧ initEffects exArgs exGlove =
      [InitEffect.loadGlove "glove.txt",
       InitEffect.seedRng 7,
       InitEffect.compileNetwork
         (compile_model 32 1 2 4 5 1 2 false false "mse" "adam")] :=
  ⟨rfl, rfl⟩

/-- Claim C7 as amended: for every configuration, the constructor
performs, in order, the embedding load from the configured path, then the
application of the random seed, then the request for a compiled network
whose input and output dimensionality are the loaded embedding's width;
the function is total in the configuration (it performs no explicit
validation of its own), and the constructed state carries the coerced
separator, the epochs setting, and the compiled network. -/
theorem init_operation_order (args : Args) (glove : String → GloveEmb) :
    initEffects args glove =
      [InitEffect.loadGlove args.emb_fn,
       InitEffect.seedRng args.seed,
       InitEffect.compileNetwork
         (compile_model args.batch_size args.input_depth
           (glove args.emb_fn).dim args.hidden_dim
           args.maximum_output_length args.output_depth
           (glove args.emb_fn).dim args.peek args.attention args.loss
           args.optimizer)]
    ∧ (Seq2seq_OIE_init args glove).1 =
      { sep := pyStr args.sep, emb := glove args.emb_fn,
        epochs := args.epochs,
        model := compile_model args.batch_size args.input_depth
          (glove args.emb_fn).dim args.hidden_dim
          args.maximum_output_length args.output_depth
          (glove args.emb_fn).dim args.peek args.attention args.loss
          args.optimizer }
    ∧ (Seq2seq_OIE_init args glove).1.model.input_dim = (glove args.emb_fn).dim
    ∧ (Seq2seq_OIE_init args glove).1.model.output_dim = (glove args.emb_fn).dim := by
  refine ⟨rfl, rfl, ?_, ?_⟩ <;>
    cases h : args.attention <;>
      simp [Seq2seq_OIE_init, compile_model, h]

/-- Claim C8: two constructor runs with the same seed and otherwise
identical configuration leave the process-wide generator in the same
state whatever state each process's generator held before, so every
subsequent draw agrees between the two runs. -/
theorem init_seed_determinism (args : Args) (glove : String → GloveEmb)
    (w1 w2 : World) :
    runInit w1 args glove = runInit w2 args glove
    ∧ ∀ n, drawStream (runInit w1 args glove).rng n =
        drawStream (runInit w2 args glove).rng n := by
  have h : ∀ w, runInit w args glove =
      { rng := rngAdvance (npRandomSeed args.seed) } := fun w => rfl
  rw [h w1, h w2]
  exact ⟨rfl, fun n => rfl⟩

/-- Claim C10: the `sep` hyperparameter is never validated as a string:
the constructor stores `str(args['sep'])` and the entry point hands
`str(hyperparams['sep'])` to the dataset-loading step, where `str()` is
total on every JSON value — so a number, a boolean or null is accepted
as a delimiter (coerced to its Python string form) rather than
rejected. -/
theorem sep_accepted_without_validation :
    (∀ (args : Args) (glove : String → GloveEmb),
      (Seq2seq_OIE_init args glove).1.sep = pyStr args.sep)
    ∧ (∀ (cli : CliArgs) (sep : PyVal),
      MainStep.loadData cli.train_fn (pyStr sep) ∈ mainSteps cli sep)
    ∧ pyStr (PyVal.int 3) = "3"
    ∧ pyStr (PyVal.bool true) = "True"
    ∧ pyStr PyVal.none = "None" := by
  refine ⟨fun args glove => rfl, fun cli sep => ?_, rfl, rfl, rfl⟩
  simp [mainSteps]

/-- Claim C2 (code bug): `def train(train_fn, dev_fn)` omits `self`, so
the bound call `instance.train(trainPath, devPath)` passes three
positional arguments to a two-parameter function and raises `TypeError`
before any dataset is loaded or `fit` invoked; `self` is indeed not among
the parameters of `train` as written. -/
theorem train_bound_call_raises_type_error :
    callBound (PyVal.obj "Seq2seq_OIE") trainParams
      [PyVal.str "train.tsv", PyVal.str "dev.tsv"] =
      Except.error (PyErr.typeError
        "takes 2 positional arguments but 3 were given")
    ∧ trainParams.contains "self" = false :=
  ⟨rfl, rfl⟩

/-- Claim C9: every invocation of `get_callbacks` under this module's
environment raises `NameError` for `os` while evaluating the checkpoint
path, whatever value the `model_dir` attribute lookup would produce, so
no checkpoint callback is ever returned; and indeed `os` and `pprint`
are bound neither by the module's imports nor among Python's built-ins,
and `model_dir` is not among the attributes `__init__` assigns. -/
theorem get_callbacks_always_raises :
    (∀ d : Option String,
      get_callbacks moduleGlobals d = Except.error (PyErr.nameError "os"))
    ∧ moduleGlobals.contains "os" = false
    ∧ pythonBuiltins.contains "os" = false
    ∧ moduleGlobals.contains "pprint" = false
    ∧ pythonBuiltins.contains "pprint" = false
    ∧ initAssignedAttrs.contains "model_dir" = false :=
  ⟨fun _ => rfl, rfl, rfl, rfl, rfl, rfl⟩

/-- Claim C6 (code bug): the `ModelCheckpoint` written in the source is
configured to save to `model_dir` joined with the fixed name
`"weights.hdf5"` with best-only saving disabled — as the environment
with `os` bound and a `model_dir` value shows — but in the module as it
stands `get_callbacks` raises `NameError` for `os` before that callback
can be returned. -/
theorem checkpoint_config_but_unreachable (d : String) :
    get_callbacks moduleGlobals (Option.some d) =
      Except.error (PyErr.nameError "os")
    ∧ get_callbacks ("os" :: moduleGlobals) (Option.some d) =
      Except.ok [Callback.lambdaCallback ["pprint", "self", "X"],
                 Callback.modelCheckpoint (checkpointSpec d)]
    ∧ (checkpointSpec d).filepath = [d, "weights.hdf5"]
    ∧ (checkpointSpec d).save_best_only = false :=
  ⟨rfl, rfl, rfl, rfl⟩

/-- Claim C4, counterexample: at a concrete command line, the entry
point's trace is argument parsing, logging configuration, hyperparameter
loading and train-dataset loading — it contains neither a model
construction nor a training step (the construction line is commented out
in the source), contrary to the claimed
configuration → construction → loading → training flow. -/
theorem main_omits_construction_and_training :
    mainSteps exCli (PyVal.str ",") =
      [MainStep.parseArgs, MainStep.configureLogging false,
       MainStep.loadHyperparams "hp.json",
       MainStep.loadData "train.tsv" ","]
    ∧ (mainSteps exCli (PyVal.str ",")).contains MainStep.constructModel =
      false
    ∧ (mainSteps exCli (PyVal.str ",")).contains MainStep.runTrain = false :=
  ⟨rfl, rfl, rfl⟩

/-- Claim C4 as amended: for every command line and `sep` value, the
entry point performs, in order, configuration loading (argument parsing,
logging setup, reading the hyperparameter JSON) followed by loading the
train dataset with the coerced separator, and nothing else: it neither
constructs the orchestrator nor runs `Train`. -/
theorem main_control_flow (cli : CliArgs) (sep : PyVal) :
    mainSteps cli sep =
      [MainStep.parseArgs, MainStep.configureLogging cli.verbose,
       MainStep.loadHyperparams cli.hyperparams_fn,
       MainStep.loadData cli.train_fn (pyStr sep)]
    ∧ (mainSteps cli sep).contains MainStep.constructModel = false
    ∧ (mainSteps cli sep).contains MainStep.runTrain = false :=
  ⟨rfl, rfl, rfl⟩

/-- Claim C3, counterexample to its error clause: a file whose only row
has just 3 fields is loaded without any parse error — the ten missing
trailing fields are filled with `NaN` — refuting the claim that a parse
error is raised whenever a row has fewer than 13 columns. -/
theorem load_dataset_short_row_is_ok :
    load_dataset ["a,b,c"] ',' =
      Except.ok { columns := oieColumns
                  rows := [[Cell.val "a", Cell.val "b", Cell.val "c",
                    Cell.nan, Cell.nan, Cell.nan, Cell.nan, Cell.nan,
                    Cell.nan, Cell.nan, Cell.nan, Cell.nan, Cell.nan]] }
    ∧ (splitRow ',' "a,b,c").length = 3 :=
  ⟨rfl, rfl⟩

/-- Claim C3 as amended: for a well-formed file (every line splits into
exactly 13 fields) `load_dataset` succeeds with one row per line of the
file; and a file in which rows have fewer than 13 columns (none more)
is not rejected with a parse error — every row is returned padded with
`NaN` to the full 13 columns.  (A parse error arises only when a row has
more than 13 columns.) -/
theorem load_dataset_row_counts (sep : Char) (lines : List String) :
    ((∀ l ∈ lines, (splitRow sep l).length = 13) →
      ∃ df, load_dataset lines sep = Except.ok df ∧
        df.rows.length = lines.length)
    ∧ ((∀ l ∈ lines, (splitRow sep l).length ≤ 13) →
      ∃ df, load_dataset lines sep = Except.ok df ∧
        ∀ r ∈ df.rows, r.length = 13) := by
  constructor
  · intro h
    refine ⟨_, read_csv_wellformed oieColumns sep lines
      (fun l hl => (h l hl).trans (by decide)) (by decide), ?_⟩
    simp
  · intro h
    refine ⟨_, read_csv_ok oieColumns sep lines
      (fun l hl => le_trans (h l hl) (by decide)), ?_⟩
    intro r hr
    simp only [List.mem_map] at hr
    obtain ⟨l, hl, rfl⟩ := hr
    have hle : (splitRow sep l).length ≤ 13 :=
      h l (List.mem_of_mem_filter hl)
    have h13 : oieColumns.length = 13 := by decide
    simp only [List.length_append, List.length_map, List.length_replicate]
    omega

/-- Witness for the amended claim C3: the theorem applied to a concrete
one-line comma-separated file with 13 fields. -/
theorem load_dataset_row_counts_witness :
    ∃ df, load_dataset ["a,b,c,d,e,f,g,h,i,j,k,l,m"] ',' =
      Except.ok df ∧
      df.rows.length = ["a,b,c,d,e,f,g,h,i,j,k,l,m"].length :=
  (load_dataset_row_counts ',' ["a,b,c,d,e,f,g,h,i,j,k,l,m"]).1 (by decide)

/-- Claim C5: for every delimiter and every file whose lines each split
into 13 fields, `load_dataset` reads the file with no header row into a
table whose columns are exactly the 13 names `sent`, `base-pred`,
`surface-pred`, `arg0` .. `arg9`, and returns the rows verbatim — each
row is the split fields of its line, unmodified, with no encoding or
vectorization step applied. -/
theorem load_dataset_schema_and_verbatim_rows (sep : Char)
    (lines : List String)
    (h : ∀ l ∈ lines, (splitRow sep l).length = 13) :
    load_dataset lines sep =
      Except.ok { columns := oieColumns
                  rows := lines.map (fun l =>
                    (splitRow sep l).map Cell.val) }
    ∧ oieColumns = ["sent", "base-pred", "surface-pred", "arg0", "arg1",
        "arg2", "arg3", "arg4", "arg5", "arg6", "arg7", "arg8", "arg9"]
    ∧ oieColumns.length = 13 :=
  ⟨read_csv_wellformed oieColumns sep lines
      (fun l hl => (h l hl).trans (by decide)) (by decide),
    by decide, by decide⟩

/-- Witness for claim C5: the theorem applied to a concrete one-line
comma-separated file with 13 fields. -/
theorem load_dataset_schema_witness :
    load_dataset ["a,b,c,d,e,f,g,h,i,j,k,l,m"] ',' =
      Except.ok { columns := oieColumns
                  rows := ["a,b,c,d,e,f,g,h,i,j,k,l,m"].map
                    (fun l => (splitRow ',' l).map Cell.val) }
    ∧ oieColumns = ["sent", "base-pred", "surface-pred", "arg0", "arg1",
        "arg2", "arg3", "arg4", "arg5", "arg6", "arg7", "arg8", "arg9"]
    ∧ oieColumns.length = 13 :=
  load_dataset_schema_and_verbatim_rows ','
    ["a,b,c,d,e,f,g,h,i,j,k,l,m"] (by decide)
